import Mathlib

set_option maxRecDepth 100000

/-!
Shallow embedding of the `nft-issue-transaction` service (src/api.rs,
src/main.rs).  Pure Rust logic is translated to Lean functions; the
external collaborators (secp256k1 recovery, web3 RPC, the remote ledger
endpoints, serde serialization, and filesystem errors) are modelled as
oracle fields of an `Env` record, and the filesystem contents as an
explicit association list threaded through the handler.  Every external
call the handler makes is recorded, in program order, in an `Event`
trace so that "no balance query was performed" style properties are
expressible.
-/

namespace NftIssueTx

/-- Byte strings are lists of naturals (each entry a `u8` value). -/
abbrev Bytes := List Nat

/-- Value of one hex digit character, as in the `hex` crate's decoder
(accepts both lowercase and uppercase). -/
def hexVal (c : Char) : Option Nat :=
  if '0' ≤ c ∧ c ≤ '9' then some (c.toNat - '0'.toNat)
  else if 'a' ≤ c ∧ c ≤ 'f' then some (c.toNat - 'a'.toNat + 10)
  else if 'A' ≤ c ∧ c ≤ 'F' then some (c.toNat - 'A'.toNat + 10)
  else none

/-- `hex::decode` on a character list: pairs of hex digits, failing on an
odd length or a non-hex character. -/
def hexDecodeChars : List Char → Option Bytes
  | [] => some []
  | [_] => none
  | c1 :: c2 :: rest => do
      let h ← hexVal c1
      let l ← hexVal c2
      let tail ← hexDecodeChars rest
      pure ((h * 16 + l) :: tail)

/-- `hex::decode` of a string. -/
def hexDecode (s : String) : Option Bytes := hexDecodeChars s.data

/-- Lowercase hex digit for a nibble, as produced by `hex::encode`. -/
def hexDigit (n : Nat) : Char := "0123456789abcdef".data.getD n 'f'

/-- `hex::encode`: lowercase hex, two digits per byte, high nibble first. -/
def hexEncode (bs : Bytes) : String :=
  String.mk (bs.flatMap (fun b => [hexDigit (b / 16 % 16), hexDigit (b % 16)]))

/-- Rust's `str::strip_prefix("0x").unwrap_or(s)` pattern used on
signatures and on the `get_issue_info` path parameter. -/
def stripHexHead (s : String) : String :=
  match s.data with
  | c1 :: c2 :: rest => if c1 = '0' ∧ c2 = 'x' then String.mk rest else s
  | _ => s

/-- UTF-8 encoding of one scalar value (`str::as_bytes` semantics). -/
def utf8Char (c : Char) : Bytes :=
  let n := c.toNat
  if n < 0x80 then [n]
  else if n < 0x800 then [0xC0 ||| (n >>> 6), 0x80 ||| (n &&& 0x3F)]
  else if n < 0x10000 then
    [0xE0 ||| (n >>> 12), 0x80 ||| ((n >>> 6) &&& 0x3F), 0x80 ||| (n &&& 0x3F)]
  else
    [0xF0 ||| (n >>> 18), 0x80 ||| ((n >>> 12) &&& 0x3F),
     0x80 ||| ((n >>> 6) &&& 0x3F), 0x80 ||| (n &&& 0x3F)]

/-- `str::as_bytes`: the UTF-8 bytes of a string. -/
def strBytes (s : String) : Bytes := s.data.flatMap utf8Char

/-- `U256::to_big_endian` generalised: `n`-byte big-endian encoding of a
natural number (most significant byte first). -/
def toBigEndian (n v : Nat) : Bytes :=
  ((List.range n).reverse).map (fun i => v / 256 ^ i % 256)

/-- Big-endian value of a byte string (specification-side decoder used to
state that `toBigEndian` really is big-endian). -/
def beVal (bs : Bytes) : Nat := bs.foldl (fun a b => a * 256 + b) 0

/-- `u64::MAX`. -/
def u64MAX : Nat := 18446744073709551615

/-- The request body of `POST /get_issue_transaction` (`GetIssueTxReq`). -/
structure GetIssueTxReq where
  id : String
  receive_public_key : String
  signature : String
  chainid : String
  token_address : String
  tokenid : String
  is_721 : Bool
  rand_str : Option String
deriving DecidableEq

/-- The response body (`GetIssueTxResp`): echoed id, numeric code
(`0` success, negative codes for failures), and message. -/
structure GetIssueTxResp where
  id : String
  code : Int
  msg : String
deriving DecidableEq

/-- A 65-byte recoverable ECDSA signature split as by
`ethers::types::Signature::try_from` (r ‖ s ‖ v). -/
structure EcdsaSig where
  r : Bytes
  s : Bytes
  v : Nat
deriving DecidableEq

/-- `Signature::try_from(&[u8])`: requires exactly 65 bytes, then splits
into r (32), s (32) and the recovery byte. -/
def signatureTryFrom (bytes : Bytes) : Except String EcdsaSig :=
  if bytes.length = 65 then
    .ok { r := bytes.take 32, s := (bytes.drop 32).take 32, v := bytes.getD 64 0 }
  else .error "InvalidLength"

/-- The subset of `ledger::data_model::AssetRules` set by this service:
`set_decimals`, `set_max_units`, `set_transferable`. -/
structure AssetRules where
  decimals : Nat
  max_units : Option Nat
  transferable : Bool
deriving DecidableEq

/-- The two ledger operations this service appends to a transaction:
`add_operation_create_asset` and `add_basic_issue_asset` (the latter with
its confidentiality flags, both `false` for
`NonConfidentialAmount_NonConfidentialAssetType`). -/
inductive Operation
  | createAsset (key : Nat) (code : Bytes) (rules : AssetRules) (memo : String)
  | issueAsset (key : Nat) (code : Bytes) (seq_id : Nat) (amount : Nat)
      (confidential_amount : Bool) (confidential_asset_type : Bool)
deriving DecidableEq

/-- `finutils::txn_builder::TransactionBuilder`, restricted to what this
service observes: the sequence id it was created from
(`from_seq_id` / `get_seq_id`) and the appended operations. -/
structure TransactionBuilder where
  seq_id : Nat
  ops : List Operation
deriving DecidableEq

/-- External calls the handler performs, recorded in program order. -/
inductive Event
  | balanceQuery
  | chainIdFetch
  | buildTx (code : Bytes) (amount : Nat)
  | deriveFetch (code : Bytes)
  | seqFetch
  | fileCreate (name : String)
  | fileWrite (name : String)
deriving DecidableEq

/-- The external world: cryptographic recovery, the string parsers of the
`uint`/`ethers` crates, the startup-populated chain registry
(`support_chain`, an association list keyed by chain id, each entry a
web3 handle and its contract allow-list), the balance oracles, the
node's reported chain id, Keccak-256, the remote ledger endpoints, the
wallet utilities, serde serialization, and injected filesystem errors.
All are pure oracles: the same call always answers the same. -/
structure Env where
  recover : EcdsaSig → String → Except String Bytes
  parseU256 : String → Except String Nat
  parseH160 : String → Except String Bytes
  support_chain : List (Nat × Nat × List Bytes)
  balance721 : Nat → Bytes → Bytes → Except (Int × String) Nat
  balance1155 : Nat → Bytes → Bytes → Nat → Except (Int × String) Nat
  ethChainId : Nat → Except String Nat
  keccak256 : Bytes → Bytes
  get_derived_asset_code : Bytes → Except String Bytes
  generate_mnemonic : Except String String
  restore_keypair : String → Except String Nat
  global_state_seq : Except String Nat
  serializeBuilder : TransactionBuilder → Except String String
  serializeReq : GetIssueTxReq → Except String String
  file_create_err : String → Option String
  file_write_err : String → Option String

/-- The idempotency store: one file per derived code's hex string.  An
association list where the most recent binding for a name wins. -/
abbrev Fs := List (String × String)

/-- Writing a file (`File::create` + content): shadows any earlier
binding for the same name. -/
def fsSet (fs : Fs) (name content : String) : Fs := (name, content) :: fs

/-- Reading a file: `read_to_string` as an `Option`. -/
def fsGet (fs : Fs) (name : String) : Option String := fs.lookup name

/-- `get_address_and_pub_key` (src/api.rs:490): strip an optional `0x`,
hex-decode (code −3 on failure), parse as a 65-byte recoverable
signature (code −4 on failure), then recover the signer address
(code −5 on failure).  Pure: no side effects on any path. -/
def get_address_and_pub_key (env : Env) (message signature : String) :
    Except (Int × String) Bytes :=
  let s := stripHexHead signature
  match hexDecode s with
  | none => .error (-3, "error: FromHexError")
  | some v =>
    match signatureTryFrom v with
    | .error e => .error (-4, "error: " ++ e)
    | .ok sig =>
      match env.recover sig message with
      | .error e => .error (-5, "error: " ++ e)
      | .ok address => .ok address

/-- `AssetTypeCode::from_bytes` of the ledger crate, on the inputs this
service feeds it: succeeds exactly on 32-byte inputs, yielding the same
32 bytes as the code value. -/
def assetTypeCodeFromBytes (b : Bytes) : Except String Bytes :=
  if b.length = 32 then .ok b else .error "InvalidLength"

/-- `create_asset_tx` (src/api.rs:305): wrap the raw code bytes
(−21 on failure), fetch the ledger-canonical derived code for it
(also −21 on failure), fix rules decimals 6 / no max units /
transferable, generate a fresh mnemonic (−23) and keypair (−24), build a
`TransactionBuilder` from the fetched global-state sequence id (−25),
append the create-asset operation bound to the raw code with empty memo,
then append the basic-issue operation for `amount` units of the
canonical code at `builder.get_seq_id()` with non-confidential amount
and asset type.  (`set_decimals(6)` and the two append calls succeed for
the fixed arguments used here; their library-internal failure arms,
codes −22/−26/−27, are unreachable in this model.)  Returns the result
together with the external calls performed. -/
def create_asset_tx (env : Env) (codeBytes : Bytes) (amount : Nat) :
    Except (Int × String) (TransactionBuilder × Bytes) × List Event :=
  match assetTypeCodeFromBytes codeBytes with
  | .error e => (.error (-21, "error: " ++ e), [])
  | .ok code =>
    match env.get_derived_asset_code code with
    | .error e => (.error (-21, "error: " ++ e), [.deriveFetch code])
    | .ok asset_code =>
      let rules : AssetRules := { decimals := 6, max_units := none, transferable := true }
      match env.generate_mnemonic with
      | .error e => (.error (-23, "error: " ++ e), [.deriveFetch code])
      | .ok mnemonic =>
        match env.restore_keypair mnemonic with
        | .error e => (.error (-24, "error: " ++ e), [.deriveFetch code])
        | .ok kp =>
          match env.global_state_seq with
          | .error e => (.error (-25, "error: " ++ e), [.deriveFetch code, .seqFetch])
          | .ok seq =>
            let builder : TransactionBuilder := { seq_id := seq, ops := [] }
            let builder :=
              { builder with ops := builder.ops ++ [Operation.createAsset kp code rules ""] }
            let builder :=
              { builder with ops := builder.ops ++
                  [Operation.issueAsset kp asset_code builder.seq_id amount false false] }
            (.ok (builder, asset_code), [.deriveFetch code, .seqFetch])

/-- The derivation preimage assembled at src/api.rs:238-258:
`token_address.0` (the raw H160 bytes) ++ 32-byte big-endian token id ++
32-byte big-endian node-reported chain id ++ the UTF-8 bytes of
`rand_str` when present. -/
def derivationData (token_address : Bytes) (tokenid chain_id : Nat)
    (rand_str : Option String) : Bytes :=
  token_address ++ toBigEndian 32 tokenid ++ toBigEndian 32 chain_id ++
    (match rand_str with
     | some v => strBytes v
     | none => [])

/-- `get_issue_transaction` (src/api.rs:155): the full handler, as a pure
function of the environment, the store contents and the request,
returning the response, the new store contents and the trace of
external calls made. -/
def get_issue_transaction (env : Env) (fs : Fs) (req : GetIssueTxReq) :
    GetIssueTxResp × Fs × List Event :=
  let resp0 : GetIssueTxResp := { id := req.id, code := 0, msg := "" }
  match get_address_and_pub_key env req.receive_public_key req.signature with
  | .error (c, m) => ({ resp0 with code := c, msg := m }, fs, [])
  | .ok address =>
  match env.parseU256 req.chainid with
  | .error e => ({ resp0 with code := -30, msg := "chainid format error:" ++ e }, fs, [])
  | .ok chainid =>
  match env.parseH160 req.token_address with
  | .error e => ({ resp0 with code := -31, msg := "token_address format error:" ++ e }, fs, [])
  | .ok token_address =>
  match env.support_chain.lookup chainid with
  | none => ({ resp0 with code := -32, msg := "chain not support" }, fs, [])
  | some (web3, contract_address) =>
  if token_address ∈ contract_address then
    match env.parseU256 req.tokenid with
    | .error e => ({ resp0 with code := -35, msg := "tokenid format error:" ++ e }, fs, [])
    | .ok tokenid =>
      match
        (if req.is_721 then env.balance721 web3 token_address address
         else env.balance1155 web3 token_address address tokenid) with
      | .error (c, m) => ({ resp0 with code := c, msg := m }, fs, [.balanceQuery])
      | .ok b0 =>
        let balance := if b0 > u64MAX then u64MAX else b0
        if balance = 0 then
          ({ resp0 with code := -36, msg := "balance is zero" }, fs, [.balanceQuery])
        else
          match env.ethChainId web3 with
          | .error e =>
            ({ resp0 with code := -40, msg := "error: " ++ e }, fs,
             [.balanceQuery, .chainIdFetch])
          | .ok chain_id =>
            let data := derivationData token_address tokenid chain_id req.rand_str
            let rawCode := env.keccak256 data
            let evs := [Event.balanceQuery, .chainIdFetch, .buildTx rawCode balance]
            match create_asset_tx env rawCode balance with
            | (.error (c, m), bevs) =>
              ({ resp0 with code := c, msg := m }, fs, evs ++ bevs)
            | (.ok (builder, asset_code), bevs) =>
              match env.serializeBuilder builder with
              | .error e =>
                ({ resp0 with code := -50, msg := "error: " ++ e }, fs, evs ++ bevs)
              | .ok txJson =>
                let hex_code := hexEncode asset_code
                match env.file_create_err hex_code with
                | some e =>
                  ({ resp0 with code := -60, msg := "save file error: " ++ e }, fs,
                   evs ++ bevs)
                | none =>
                  let fs1 := fsSet fs hex_code ""
                  let evs1 := evs ++ bevs ++ [Event.fileCreate hex_code]
                  match env.serializeReq req with
                  | .error e =>
                    ({ resp0 with code := -70, msg := "save file error: " ++ e }, fs1, evs1)
                  | .ok json =>
                    match env.file_write_err hex_code with
                    | some e =>
                      ({ resp0 with code := -80, msg := "save file error: " ++ e }, fs1, evs1)
                    | none =>
                      ({ resp0 with code := 0, msg := txJson },
                       fsSet fs1 hex_code json, evs1 ++ [Event.fileWrite hex_code])
  else ({ resp0 with code := -33, msg := "token_address not support" }, fs, [])

/-- `get_issue_info` (src/api.rs:142): strip an optional `0x` from the
path parameter, read the file named by the remaining hex string from the
store directory, and return its contents,
defaulting to the empty string (`unwrap_or_default`). -/
def get_issue_info (fs : Fs) (hex_code : String) : String :=
  let hex_code := stripHexHead hex_code
  (fsGet fs hex_code).getD ""

/-! Concrete environments and requests used to instantiate the theorems. -/

/-- A 20-byte address. -/
def addrA : Bytes := List.replicate 20 170

/-- A 32-byte raw code (the Keccak oracle's answer below). -/
def code1 : Bytes := List.replicate 32 1

/-- A distinct 32-byte canonical code (the remote derivation's answer). -/
def code2 : Bytes := List.replicate 32 2

/-- 130 hex characters: decodes to a 65-byte (all-zero) signature. -/
def sig130 : String := String.mk (List.replicate 130 '0')

/-- A request that passes every gate of `envOk`. -/
def reqA : GetIssueTxReq :=
  { id := "r1", receive_public_key := "pk", signature := sig130, chainid := "1",
    token_address := "ta", tokenid := "1", is_721 := true, rand_str := none }

/-- An environment in which every external call succeeds. -/
def envOk : Env :=
  { recover := fun _ _ => .ok addrA
    parseU256 := fun _ => .ok 1
    parseH160 := fun _ => .ok addrA
    support_chain := [(1, 7, [addrA])]
    balance721 := fun _ _ _ => .ok 42
    balance1155 := fun _ _ _ _ => .ok 42
    ethChainId := fun _ => .ok 1
    keccak256 := fun _ => code1
    get_derived_asset_code := fun _ => .ok code2
    generate_mnemonic := .ok "m"
    restore_keypair := fun _ => .ok 0
    global_state_seq := .ok 5
    serializeBuilder := fun _ => .ok "TX"
    serializeReq := fun r => .ok ("REQ:" ++ r.id)
    file_create_err := fun _ => none
    file_write_err := fun _ => none }

/-! Helper lemmas about the byte-level encoders. -/

theorem toBigEndian_length (n v : Nat) : (toBigEndian n v).length = n := by
  simp [toBigEndian]

theorem toBigEndian_succ (n v : Nat) :
    toBigEndian (n + 1) v = (v / 256 ^ n % 256) :: toBigEndian n v := by
  simp [toBigEndian, List.range_succ]

theorem beVal_toBigEndian_aux (n : Nat) : ∀ a v : Nat,
    (toBigEndian n v).foldl (fun x b => x * 256 + b) a = a * 256 ^ n + v % 256 ^ n := by
  induction n with
  | zero => intro a v; simp [toBigEndian, Nat.mod_one]
  | succ n ih =>
    intro a v
    rw [toBigEndian_succ, List.foldl_cons, ih]
    have h256 : (256 : Nat) ^ (n + 1) = 256 ^ n * 256 := by ring
    rw [h256, Nat.mod_mul]
    ring

/-- `toBigEndian` really is a big-endian encoding: decoding it with the
most-significant-first accumulator recovers the encoded value. -/
theorem beVal_toBigEndian (n v : Nat) (h : v < 256 ^ n) : beVal (toBigEndian n v) = v := by
  unfold beVal
  rw [beVal_toBigEndian_aux]
  simp [Nat.mod_eq_of_lt h]

theorem hexDigit_ne_x (n : Nat) : hexDigit n ≠ 'x' := by
  by_cases h : n < 16
  · interval_cases n <;> decide
  · unfold hexDigit
    rw [List.getD_eq_getElem?_getD, List.getElem?_eq_none (by simpa using Nat.le_of_not_lt h)]
    decide

/-- `hex::encode` output never begins with `0x` (its second character is
a hex digit, never `x`), so the `strip_prefix("0x")` in `get_issue_info`
leaves it unchanged. -/
theorem stripHexHead_hexEncode (bs : Bytes) : stripHexHead (hexEncode bs) = hexEncode bs := by
  unfold stripHexHead hexEncode
  cases bs with
  | nil => rfl
  | cons b rest =>
    simp only [List.flatMap_cons, List.cons_append]
    rw [if_neg]
    intro hx
    exact hexDigit_ne_x (b % 16) hx.2

theorem fsGet_fsSet (fs : Fs) (n c : String) : fsGet (fsSet fs n c) n = some c := by
  simp [fsGet, fsSet, List.lookup]

/-- C7: a signature string that (after optional `0x` stripping) hex-decodes
to a byte length other than 65 makes the handler fail with the
malformed-input code −4, for every environment — in particular the
result never consults the recovery oracle; a 65-byte signature on which
cryptographic recovery fails makes it fail with the identity-unverified
code −5.  In both cases the store is unchanged and no external call is
made. -/
theorem c7_signature_boundary (env : Env) (fs : Fs) (req : GetIssueTxReq) :
    (∀ v, hexDecode (stripHexHead req.signature) = some v → v.length ≠ 65 →
      get_issue_transaction env fs req =
        ({ id := req.id, code := -4, msg := "error: InvalidLength" }, fs, [])) ∧
    (∀ v sig e, hexDecode (stripHexHead req.signature) = some v →
      signatureTryFrom v = .ok sig →
      env.recover sig req.receive_public_key = .error e →
      get_issue_transaction env fs req =
        ({ id := req.id, code := -5, msg := "error: " ++ e }, fs, [])) := by
  constructor
  · intro v hv hlen
    simp only [get_issue_transaction, get_address_and_pub_key, hv, signatureTryFrom,
      if_neg hlen]
    rfl
  · intro v sig e hv hsig hrec
    simp only [get_issue_transaction, get_address_and_pub_key, hv, hsig, hrec]

/-- A request whose signature decodes to a single byte. -/
def reqShortSig : GetIssueTxReq := { reqA with signature := "00" }

/-- An environment whose recovery oracle always fails. -/
def envRecFail : Env := { envOk with recover := fun _ _ => .error "RecoveryError" }

/-- The all-zero 65-byte signature, as split by `signatureTryFrom`. -/
def sigZero : EcdsaSig :=
  { r := List.replicate 32 0, s := List.replicate 32 0, v := 0 }

theorem c7_signature_boundary_witness :
    get_issue_transaction envOk [] reqShortSig =
      ({ id := "r1", code := -4, msg := "error: InvalidLength" }, [], []) ∧
    get_issue_transaction envRecFail [] reqA =
      ({ id := "r1", code := -5, msg := "error: RecoveryError" }, [], []) := by
  constructor
  · exact (c7_signature_boundary envOk [] reqShortSig).1 [0] (by decide) (by decide)
  · exact (c7_signature_boundary envRecFail [] reqA).2 (List.replicate 65 0) sigZero
      "RecoveryError" (by decide) rfl rfl

/-- C5: once identity verification and the two parses succeed, a chain id
absent from the registry is rejected with code −32 and a registered
chain with an unlisted contract with code −33, in both cases with an
empty external-call trace — in particular no balance query — and an
unchanged store. -/
theorem c5_admission_gate (env : Env) (fs : Fs) (req : GetIssueTxReq)
    (addr ta : Bytes) (cid : Nat)
    (h1 : get_address_and_pub_key env req.receive_public_key req.signature = .ok addr)
    (h2 : env.parseU256 req.chainid = .ok cid)
    (h3 : env.parseH160 req.token_address = .ok ta) :
    (env.support_chain.lookup cid = none →
      get_issue_transaction env fs req =
        ({ id := req.id, code := -32, msg := "chain not support" }, fs, [])) ∧
    (∀ w3 cs, env.support_chain.lookup cid = some (w3, cs) → ta ∉ cs →
      get_issue_transaction env fs req =
        ({ id := req.id, code := -33, msg := "token_address not support" }, fs, [])) := by
  constructor
  · intro hnone
    simp only [get_issue_transaction, h1, h2, h3, hnone]
  · intro w3 cs hsome hmem
    simp only [get_issue_transaction, h1, h2, h3, hsome, if_neg hmem]

/-- Registry without any chain entry. -/
def envNoChain : Env := { envOk with support_chain := [] }

/-- Registry with chain 1 but an empty contract allow-list. -/
def envNoContract : Env := { envOk with support_chain := [(1, 7, [])] }

theorem c5_admission_gate_witness :
    get_issue_transaction envNoChain [] reqA =
      ({ id := "r1", code := -32, msg := "chain not support" }, [], []) ∧
    get_issue_transaction envNoContract [] reqA =
      ({ id := "r1", code := -33, msg := "token_address not support" }, [], []) := by
  constructor
  · exact (c5_admission_gate envNoChain [] reqA addrA addrA 1 rfl rfl rfl).1 rfl
  · exact (c5_admission_gate envNoContract [] reqA addrA addrA 1 rfl rfl rfl).2
      7 [] rfl (by decide)

/-- Shared stepping lemma: once every gate up to the chain-id fetch has
passed and the saturated balance is non-zero, the handler's trace starts
with the balance query, the chain-id fetch, and the builder invocation
on the Keccak-256 hash of the derivation preimage with the saturated
balance — for every store contents. -/
theorem build_trace_aux (env : Env) (fs : Fs) (req : GetIssueTxReq)
    (addr ta : Bytes) (cid w3 : Nat) (cs : List Bytes) (tid b cid2 : Nat)
    (h1 : get_address_and_pub_key env req.receive_public_key req.signature = .ok addr)
    (h2 : env.parseU256 req.chainid = .ok cid)
    (h3 : env.parseH160 req.token_address = .ok ta)
    (h4 : env.support_chain.lookup cid = some (w3, cs))
    (h5 : ta ∈ cs)
    (h6 : env.parseU256 req.tokenid = .ok tid)
    (hb : (if req.is_721 then env.balance721 w3 ta addr
      else env.balance1155 w3 ta addr tid) = .ok b)
    (hbal : (if b > u64MAX then u64MAX else b) ≠ 0)
    (h7 : env.ethChainId w3 = .ok cid2) :
    ∃ t, (get_issue_transaction env fs req).2.2 =
      Event.balanceQuery :: Event.chainIdFetch ::
        Event.buildTx (env.keccak256 (derivationData ta tid cid2 req.rand_str))
          (if b > u64MAX then u64MAX else b) :: t := by
  simp only [get_issue_transaction, h1, h2, h3, h4, if_pos h5, h6, hb]
  rw [if_neg hbal]
  simp only [h7]
  rcases hc : create_asset_tx env
      (env.keccak256 (derivationData ta tid cid2 req.rand_str))
      (if b > u64MAX then u64MAX else b) with ⟨r, bevs⟩
  rcases r with ⟨c, m⟩ | ⟨bldr, ac⟩
  · exact ⟨bevs, by simp⟩
  · rcases hs : env.serializeBuilder bldr with e | tx
    · exact ⟨bevs, by simp [hs]⟩
    · simp only [hs]
      rcases hcr : env.file_create_err (hexEncode ac) with _ | e
      · simp only [hcr]
        rcases hsr : env.serializeReq req with e' | json
        · exact ⟨bevs ++ [Event.fileCreate (hexEncode ac)], by simp [hsr]⟩
        · simp only [hsr]
          rcases hw : env.file_write_err (hexEncode ac) with _ | e2
          · exact ⟨bevs ++ [Event.fileCreate (hexEncode ac),
              Event.fileWrite (hexEncode ac)], by simp [hw]⟩
          · exact ⟨bevs ++ [Event.fileCreate (hexEncode ac)], by simp [hw]⟩
      · exact ⟨bevs, by simp [hcr]⟩

/-- C6: once the gates up to token-id parsing pass, a balance query
answering exactly zero is rejected with code −36, with the store
unchanged, no transaction built and the balance query the only external
call; and a balance strictly above `u64::MAX` reaches the issuance
builder with amount exactly `u64::MAX` — the third trace entry records
the builder invocation with the saturated amount. -/
theorem c6_balance_gate (env : Env) (fs : Fs) (req : GetIssueTxReq)
    (addr ta : Bytes) (cid w3 : Nat) (cs : List Bytes) (tid : Nat)
    (h1 : get_address_and_pub_key env req.receive_public_key req.signature = .ok addr)
    (h2 : env.parseU256 req.chainid = .ok cid)
    (h3 : env.parseH160 req.token_address = .ok ta)
    (h4 : env.support_chain.lookup cid = some (w3, cs))
    (h5 : ta ∈ cs)
    (h6 : env.parseU256 req.tokenid = .ok tid) :
    ((if req.is_721 then env.balance721 w3 ta addr
      else env.balance1155 w3 ta addr tid) = .ok 0 →
      get_issue_transaction env fs req =
        ({ id := req.id, code := -36, msg := "balance is zero" }, fs,
         [Event.balanceQuery])) ∧
    (∀ b cid2, (if req.is_721 then env.balance721 w3 ta addr
      else env.balance1155 w3 ta addr tid) = .ok b → b > u64MAX →
      env.ethChainId w3 = .ok cid2 →
      ∃ t, (get_issue_transaction env fs req).2.2 =
        Event.balanceQuery :: Event.chainIdFetch ::
          Event.buildTx (env.keccak256 (derivationData ta tid cid2 req.rand_str))
            u64MAX :: t) := by
  constructor
  · intro hb
    simp only [get_issue_transaction, h1, h2, h3, h4, if_pos h5, h6, hb]
    norm_num
  · intro b cid2 hb hbig h7
    have hbal : (if b > u64MAX then u64MAX else b) ≠ 0 := by
      rw [if_pos hbig]; decide
    obtain ⟨t, ht⟩ := build_trace_aux env fs req addr ta cid w3 cs tid b cid2
      h1 h2 h3 h4 h5 h6 hb hbal h7
    rw [if_pos hbig] at ht
    exact ⟨t, ht⟩

/-- Balance oracle answering zero. -/
def envZero : Env := { envOk with balance721 := fun _ _ _ => .ok 0 }

/-- Balance oracle answering `2^64`, one above `u64::MAX`. -/
def envBig : Env := { envOk with balance721 := fun _ _ _ => .ok (2 ^ 64) }

theorem c6_balance_gate_witness :
    get_issue_transaction envZero [] reqA =
      ({ id := "r1", code := -36, msg := "balance is zero" }, [], [Event.balanceQuery]) ∧
    ∃ t, (get_issue_transaction envBig [] reqA).2.2 =
      Event.balanceQuery :: Event.chainIdFetch :: Event.buildTx code1 u64MAX :: t := by
  constructor
  · exact (c6_balance_gate envZero [] reqA addrA addrA 1 7 [addrA] 1
      rfl rfl rfl rfl (by decide) rfl).1 rfl
  · exact (c6_balance_gate envBig [] reqA addrA addrA 1 7 [addrA] 1
      rfl rfl rfl rfl (by decide) rfl).2 (2 ^ 64) 1 rfl (by decide) rfl

/-- C4: on any run that reaches the derivation, the code handed to the
issuance builder is the Keccak oracle applied to exactly
`token contract bytes ++ 32-byte big-endian token id ++ 32-byte
big-endian chain id ++ optional UTF-8 salt bytes`, with no delimiters;
the preimage and hence the code do not depend on the store (so repeated
calls with fixed inputs derive the same code); the code is 32 bytes
(keccak-256 output length); and the 32-byte token-id field is a faithful
big-endian encoding. -/
theorem c4_derivation_layout (env : Env) (req : GetIssueTxReq)
    (addr ta : Bytes) (cid w3 : Nat) (cs : List Bytes) (tid b cid2 : Nat)
    (h1 : get_address_and_pub_key env req.receive_public_key req.signature = .ok addr)
    (h2 : env.parseU256 req.chainid = .ok cid)
    (h3 : env.parseH160 req.token_address = .ok ta)
    (h4 : env.support_chain.lookup cid = some (w3, cs))
    (h5 : ta ∈ cs)
    (h6 : env.parseU256 req.tokenid = .ok tid)
    (hb : (if req.is_721 then env.balance721 w3 ta addr
      else env.balance1155 w3 ta addr tid) = .ok b)
    (hb0 : b ≠ 0)
    (h7 : env.ethChainId w3 = .ok cid2)
    (hk : ∀ l, (env.keccak256 l).length = 32)
    (htid : tid < 256 ^ 32) :
    derivationData ta tid cid2 req.rand_str =
      ta ++ toBigEndian 32 tid ++ toBigEndian 32 cid2 ++
        (match req.rand_str with
         | some v => strBytes v
         | none => []) ∧
    (∀ fs : Fs, ∃ t, (get_issue_transaction env fs req).2.2 =
      Event.balanceQuery :: Event.chainIdFetch ::
        Event.buildTx (env.keccak256 (derivationData ta tid cid2 req.rand_str))
          (if b > u64MAX then u64MAX else b) :: t) ∧
    (env.keccak256 (derivationData ta tid cid2 req.rand_str)).length = 32 ∧
    (toBigEndian 32 tid).length = 32 ∧
    beVal (toBigEndian 32 tid) = tid := by
  refine ⟨rfl, ?_, hk _, toBigEndian_length 32 tid, beVal_toBigEndian 32 tid htid⟩
  intro fs
  have hbal : (if b > u64MAX then u64MAX else b) ≠ 0 := by
    split
    · decide
    · exact hb0
  exact build_trace_aux env fs req addr ta cid w3 cs tid b cid2
    h1 h2 h3 h4 h5 h6 hb hbal h7

theorem c4_derivation_layout_witness :
    derivationData addrA 1 1 reqA.rand_str =
      addrA ++ toBigEndian 32 1 ++ toBigEndian 32 1 ++ [] ∧
    (∃ t, (get_issue_transaction envOk [] reqA).2.2 =
      Event.balanceQuery :: Event.chainIdFetch ::
        Event.buildTx (envOk.keccak256 (derivationData addrA 1 1 reqA.rand_str))
          (if 42 > u64MAX then u64MAX else 42) :: t) ∧
    (envOk.keccak256 (derivationData addrA 1 1 reqA.rand_str)).length = 32 ∧
    beVal (toBigEndian 32 1) = 1 := by
  obtain ⟨ha, hfs, hl, _, hbe⟩ := c4_derivation_layout envOk reqA addrA addrA 1 7 [addrA]
    1 42 1 rfl rfl rfl rfl (by decide) rfl rfl (by decide) rfl
    (fun _ => rfl) (by decide)
  exact ⟨ha, hfs [], hl, hbe⟩

/-- C3 (amended): every successful build consists of exactly two
operations in order — a create-asset operation with decimal precision 6,
no maximum supply, transferable flag true, empty memo, bound to the raw
derived (Keccak) code; then an issue operation for exactly `amount`
units at the fetched sequence id with non-confidential amount and asset
type, whose asset type is the remote canonicalization of the raw code
(the create operation's code) — equal to the create operation's code
precisely when the ledger-side canonicalization is the identity on it. -/
theorem c3_build_operations (env : Env) (codeBytes : Bytes) (amount : Nat)
    (builder : TransactionBuilder) (asset_code : Bytes) (evs : List Event)
    (h : create_asset_tx env codeBytes amount = (.ok (builder, asset_code), evs)) :
    env.get_derived_asset_code codeBytes = .ok asset_code ∧
    ∃ kp mnemonic seq,
      env.generate_mnemonic = .ok mnemonic ∧
      env.restore_keypair mnemonic = .ok kp ∧
      env.global_state_seq = .ok seq ∧
      builder.seq_id = seq ∧
      builder.ops =
        [Operation.createAsset kp codeBytes
          { decimals := 6, max_units := none, transferable := true } "",
         Operation.issueAsset kp asset_code seq amount false false] := by
  unfold create_asset_tx at h
  split at h
  next e heq => simp at h
  next code heq =>
    have hcode : code = codeBytes := by
      unfold assetTypeCodeFromBytes at heq
      split at heq
      · injection heq with heq2
        exact heq2.symm
      · simp at heq
    subst hcode
    split at h
    next e hgd => simp at h
    next ac hgd =>
      split at h
      next e hgm => simp at h
      next mn hgm =>
        split at h
        next e hrk => simp at h
        next kp hrk =>
          split at h
          next e hseq => simp at h
          next seq hseq =>
            simp only [Prod.mk.injEq, Except.ok.injEq] at h
            obtain ⟨⟨hbld, hac⟩, -⟩ := h
            subst hac
            refine ⟨hgd, kp, mn, seq, hgm, hrk, hseq, ?_, ?_⟩
            · rw [← hbld]
            · rw [← hbld]
              simp

/-- C3, counterexample to the claim as stated: in an environment whose
ledger-side canonicalization maps the raw code `code1` to a different
code `code2`, a successful build binds its create-asset operation to
`code1` but issues `code2` — the issue operation's asset type is not the
create operation's asset type. -/
theorem c3_counterexample :
    (create_asset_tx envOk code1 42).1 =
      .ok ({ seq_id := 5,
             ops := [Operation.createAsset 0 code1
                      { decimals := 6, max_units := none, transferable := true } "",
                     Operation.issueAsset 0 code2 5 42 false false] }, code2) ∧
    code1 ≠ code2 := by
  constructor
  · rfl
  · decide

theorem c3_build_operations_witness :
    envOk.get_derived_asset_code code1 = .ok code2 ∧
    ∃ kp mnemonic seq,
      envOk.generate_mnemonic = .ok mnemonic ∧
      envOk.restore_keypair mnemonic = .ok kp ∧
      envOk.global_state_seq = .ok seq ∧
      (5 : Nat) = seq ∧
      [Operation.createAsset 0 code1
         { decimals := 6, max_units := none, transferable := true } "",
       Operation.issueAsset 0 code2 5 42 false false] =
        [Operation.createAsset kp code1
          { decimals := 6, max_units := none, transferable := true } "",
         Operation.issueAsset kp code2 seq 42 false false] :=
  c3_build_operations envOk code1 42
    { seq_id := 5,
      ops := [Operation.createAsset 0 code1
                { decimals := 6, max_units := none, transferable := true } "",
              Operation.issueAsset 0 code2 5 42 false false] }
    code2 [Event.deriveFetch code1, Event.seqFetch] rfl

/-- C2 (amended): when the build succeeds and persistence then fails,
the response carries the distinct code −60 (file creation failed),
−70 (request serialization failed) or −80 (file write failed), and its
message carries the persistence-error diagnostic, which replaces the
already-built serialized transaction — the transaction is withheld from
the caller.  On −60 the store is untouched; on −70/−80 the truncated
empty file remains. -/
theorem c2_persistence_failure (env : Env) (fs : Fs) (req : GetIssueTxReq)
    (addr ta : Bytes) (cid w3 : Nat) (cs : List Bytes) (tid b cid2 : Nat)
    (builder : TransactionBuilder) (asset_code : Bytes) (bevs : List Event)
    (txJson : String)
    (h1 : get_address_and_pub_key env req.receive_public_key req.signature = .ok addr)
    (h2 : env.parseU256 req.chainid = .ok cid)
    (h3 : env.parseH160 req.token_address = .ok ta)
    (h4 : env.support_chain.lookup cid = some (w3, cs))
    (h5 : ta ∈ cs)
    (h6 : env.parseU256 req.tokenid = .ok tid)
    (hb : (if req.is_721 then env.balance721 w3 ta addr
      else env.balance1155 w3 ta addr tid) = .ok b)
    (hb0 : b ≠ 0)
    (h7 : env.ethChainId w3 = .ok cid2)
    (hct : create_asset_tx env (env.keccak256 (derivationData ta tid cid2 req.rand_str))
      (if b > u64MAX then u64MAX else b) = (.ok (builder, asset_code), bevs))
    (hsb : env.serializeBuilder builder = .ok txJson) :
    (∀ e, env.file_create_err (hexEncode asset_code) = some e →
      (get_issue_transaction env fs req).1 =
        { id := req.id, code := -60, msg := "save file error: " ++ e } ∧
      (get_issue_transaction env fs req).2.1 = fs) ∧
    (∀ e, env.file_create_err (hexEncode asset_code) = none →
      env.serializeReq req = .error e →
      (get_issue_transaction env fs req).1 =
        { id := req.id, code := -70, msg := "save file error: " ++ e }) ∧
    (∀ json e, env.file_create_err (hexEncode asset_code) = none →
      env.serializeReq req = .ok json →
      env.file_write_err (hexEncode asset_code) = some e →
      (get_issue_transaction env fs req).1 =
        { id := req.id, code := -80, msg := "save file error: " ++ e }) := by
  have hbal : (if b > u64MAX then u64MAX else b) ≠ 0 := by
    split
    · decide
    · exact hb0
  refine ⟨?_, ?_, ?_⟩
  · intro e hce
    constructor <;>
      (simp only [get_issue_transaction, h1, h2, h3, h4, if_pos h5, h6, hb];
       rw [if_neg hbal];
       simp only [h7, hct, hsb, hce])
  · intro e hce hsr
    simp only [get_issue_transaction, h1, h2, h3, h4, if_pos h5, h6, hb]
    rw [if_neg hbal]
    simp only [h7, hct, hsb, hce, hsr]
  · intro json e hce hsr hw
    simp only [get_issue_transaction, h1, h2, h3, h4, if_pos h5, h6, hb]
    rw [if_neg hbal]
    simp only [h7, hct, hsb, hce, hsr, hw]

/-- Environment in which `File::create` fails. -/
def envCreateFail : Env := { envOk with file_create_err := fun _ => some "denied" }

/-- C2, counterexample to the claim as stated: the build succeeded and
its serialization is the string `TX`, the persistence failure is
reported with code −60, but the response message is the save-file
diagnostic and does not contain the serialized transaction. -/
theorem c2_counterexample :
    (get_issue_transaction envCreateFail [] reqA).1 =
      { id := "r1", code := -60, msg := "save file error: denied" } ∧
    envCreateFail.serializeBuilder
      { seq_id := 5,
        ops := [Operation.createAsset 0 code1
                  { decimals := 6, max_units := none, transferable := true } "",
                Operation.issueAsset 0 code2 5 42 false false] } = .ok "TX" ∧
    ¬ ("TX".data <:+: (get_issue_transaction envCreateFail [] reqA).1.msg.data) := by
  refine ⟨by decide, rfl, by decide⟩

theorem c2_persistence_failure_witness :
    (get_issue_transaction envCreateFail [] reqA).1 =
      { id := "r1", code := -60, msg := "save file error: " ++ "denied" } ∧
    (get_issue_transaction envCreateFail [] reqA).2.1 = [] :=
  (c2_persistence_failure envCreateFail [] reqA addrA addrA 1 7 [addrA] 1 42 1
    { seq_id := 5,
      ops := [Operation.createAsset 0 code1
                { decimals := 6, max_units := none, transferable := true } "",
              Operation.issueAsset 0 code2 5 42 false false] }
    code2 [Event.deriveFetch code1, Event.seqFetch] "TX"
    rfl rfl rfl rfl (by decide) rfl rfl (by decide) rfl rfl rfl).1 "denied" rfl

/-- The builder produced by `envOk` for amount 42. -/
def builderOk : TransactionBuilder :=
  { seq_id := 5,
    ops := [Operation.createAsset 0 code1
              { decimals := 6, max_units := none, transferable := true } "",
            Operation.issueAsset 0 code2 5 42 false false] }

/-- C8: after a fully successful issuance committed under the canonical
code, the response is the serialized transaction with code 0, and
`get_issue_info` applied to the lowercase hex encoding of that code
returns the JSON serialization of the original request; and for any hex
code whose (0x-stripped) name has no record in the store,
`get_issue_info` returns the empty string rather than an error. -/
theorem c8_lookup_roundtrip (env : Env) (fs : Fs) (req : GetIssueTxReq)
    (addr ta : Bytes) (cid w3 : Nat) (cs : List Bytes) (tid b cid2 : Nat)
    (builder : TransactionBuilder) (asset_code : Bytes) (bevs : List Event)
    (txJson json : String)
    (h1 : get_address_and_pub_key env req.receive_public_key req.signature = .ok addr)
    (h2 : env.parseU256 req.chainid = .ok cid)
    (h3 : env.parseH160 req.token_address = .ok ta)
    (h4 : env.support_chain.lookup cid = some (w3, cs))
    (h5 : ta ∈ cs)
    (h6 : env.parseU256 req.tokenid = .ok tid)
    (hb : (if req.is_721 then env.balance721 w3 ta addr
      else env.balance1155 w3 ta addr tid) = .ok b)
    (hb0 : b ≠ 0)
    (h7 : env.ethChainId w3 = .ok cid2)
    (hct : create_asset_tx env (env.keccak256 (derivationData ta tid cid2 req.rand_str))
      (if b > u64MAX then u64MAX else b) = (.ok (builder, asset_code), bevs))
    (hsb : env.serializeBuilder builder = .ok txJson)
    (hce : env.file_create_err (hexEncode asset_code) = none)
    (hsr : env.serializeReq req = .ok json)
    (hw : env.file_write_err (hexEncode asset_code) = none) :
    (get_issue_transaction env fs req).1 = { id := req.id, code := 0, msg := txJson } ∧
    get_issue_info (get_issue_transaction env fs req).2.1 (hexEncode asset_code) = json ∧
    (∀ fsx hxc, fsGet fsx (stripHexHead hxc) = none → get_issue_info fsx hxc = "") := by
  have hbal : (if b > u64MAX then u64MAX else b) ≠ 0 := by
    split
    · decide
    · exact hb0
  refine ⟨?_, ?_, ?_⟩
  · simp only [get_issue_transaction, h1, h2, h3, h4, if_pos h5, h6, hb]
    rw [if_neg hbal]
    simp only [h7, hct, hsb, hce, hsr, hw]
  · simp only [get_issue_transaction, h1, h2, h3, h4, if_pos h5, h6, hb]
    rw [if_neg hbal]
    simp only [h7, hct, hsb, hce, hsr, hw]
    unfold get_issue_info
    simp only [stripHexHead_hexEncode, fsGet_fsSet]
    rfl
  · intro fsx hxc hnone
    unfold get_issue_info
    simp only [hnone]
    rfl

theorem c8_lookup_roundtrip_witness :
    (get_issue_transaction envOk [] reqA).1 = { id := "r1", code := 0, msg := "TX" } ∧
    get_issue_info (get_issue_transaction envOk [] reqA).2.1 (hexEncode code2) =
      "REQ:r1" ∧
    get_issue_info [] "ab" = "" := by
  have h := c8_lookup_roundtrip envOk [] reqA addrA addrA 1 7 [addrA] 1 42 1
    builderOk code2 [Event.deriveFetch code1, Event.seqFetch] "TX" "REQ:r1"
    rfl rfl rfl rfl (by decide) rfl rfl (by decide) rfl rfl rfl rfl rfl rfl
  exact ⟨h.1, h.2.1, h.2.2 [] "ab" rfl⟩

/-- C9: the file under the code's hex key is created — truncating any
existing content — before the request is serialized and written, so on a
serialization failure (code −70) or a write failure (code −80) the store
retains an empty file under that key (the trace ends with the file
creation and contains no write), and a subsequent `get_issue_info` for
that code returns the empty string instead of the original request. -/
theorem c9_nonatomic_commit (env : Env) (fs : Fs) (req : GetIssueTxReq)
    (addr ta : Bytes) (cid w3 : Nat) (cs : List Bytes) (tid b cid2 : Nat)
    (builder : TransactionBuilder) (asset_code : Bytes) (bevs : List Event)
    (txJson : String)
    (h1 : get_address_and_pub_key env req.receive_public_key req.signature = .ok addr)
    (h2 : env.parseU256 req.chainid = .ok cid)
    (h3 : env.parseH160 req.token_address = .ok ta)
    (h4 : env.support_chain.lookup cid = some (w3, cs))
    (h5 : ta ∈ cs)
    (h6 : env.parseU256 req.tokenid = .ok tid)
    (hb : (if req.is_721 then env.balance721 w3 ta addr
      else env.balance1155 w3 ta addr tid) = .ok b)
    (hb0 : b ≠ 0)
    (h7 : env.ethChainId w3 = .ok cid2)
    (hct : create_asset_tx env (env.keccak256 (derivationData ta tid cid2 req.rand_str))
      (if b > u64MAX then u64MAX else b) = (.ok (builder, asset_code), bevs))
    (hsb : env.serializeBuilder builder = .ok txJson)
    (hce : env.file_create_err (hexEncode asset_code) = none) :
    (∀ e, env.serializeReq req = .error e →
      get_issue_transaction env fs req =
        ({ id := req.id, code := -70, msg := "save file error: " ++ e },
         fsSet fs (hexEncode asset_code) "",
         [Event.balanceQuery, Event.chainIdFetch,
          Event.buildTx (env.keccak256 (derivationData ta tid cid2 req.rand_str))
            (if b > u64MAX then u64MAX else b)] ++ bevs ++
           [Event.fileCreate (hexEncode asset_code)]) ∧
      get_issue_info (fsSet fs (hexEncode asset_code) "") (hexEncode asset_code) = "") ∧
    (∀ json e, env.serializeReq req = .ok json →
      env.file_write_err (hexEncode asset_code) = some e →
      get_issue_transaction env fs req =
        ({ id := req.id, code := -80, msg := "save file error: " ++ e },
         fsSet fs (hexEncode asset_code) "",
         [Event.balanceQuery, Event.chainIdFetch,
          Event.buildTx (env.keccak256 (derivationData ta tid cid2 req.rand_str))
            (if b > u64MAX then u64MAX else b)] ++ bevs ++
           [Event.fileCreate (hexEncode asset_code)]) ∧
      get_issue_info (fsSet fs (hexEncode asset_code) "") (hexEncode asset_code) = "") := by
  have hbal : (if b > u64MAX then u64MAX else b) ≠ 0 := by
    split
    · decide
    · exact hb0
  have hinfo :
      get_issue_info (fsSet fs (hexEncode asset_code) "") (hexEncode asset_code) = "" := by
    unfold get_issue_info
    simp only [stripHexHead_hexEncode, fsGet_fsSet]
    rfl
  constructor
  · intro e hsr
    refine ⟨?_, hinfo⟩
    simp only [get_issue_transaction, h1, h2, h3, h4, if_pos h5, h6, hb]
    rw [if_neg hbal]
    simp only [h7, hct, hsb, hce, hsr]
  · intro json e hsr hw
    refine ⟨?_, hinfo⟩
    simp only [get_issue_transaction, h1, h2, h3, h4, if_pos h5, h6, hb]
    rw [if_neg hbal]
    simp only [h7, hct, hsb, hce, hsr, hw]

/-- Environment in which serializing the request for persistence fails. -/
def envSerFail : Env := { envOk with serializeReq := fun _ => .error "serde" }

theorem c9_nonatomic_commit_witness :
    get_issue_transaction envSerFail [] reqA =
      ({ id := "r1", code := -70, msg := "save file error: " ++ "serde" },
       fsSet [] (hexEncode code2) "",
       [Event.balanceQuery, Event.chainIdFetch,
        Event.buildTx (envSerFail.keccak256 (derivationData addrA 1 1 reqA.rand_str))
          (if 42 > u64MAX then u64MAX else 42)] ++
         [Event.deriveFetch code1, Event.seqFetch] ++
         [Event.fileCreate (hexEncode code2)]) ∧
    get_issue_info (fsSet [] (hexEncode code2) "") (hexEncode code2) = "" :=
  (c9_nonatomic_commit envSerFail [] reqA addrA addrA 1 7 [addrA] 1 42 1
    builderOk code2 [Event.deriveFetch code1, Event.seqFetch] "TX"
    rfl rfl rfl rfl (by decide) rfl rfl (by decide) rfl rfl rfl rfl).1 "serde" rfl

/-- The first request issued again under a different request id: it
derives the same asset code. -/
def reqA2 : GetIssueTxReq := { reqA with id := "r2" }

/-- C1: the claim fails on this code — there is no existence check in
`get_issue_transaction` at all.  Issuing twice against the same derived
code yields a successful build (code 0) on the first call AND a second
successful build on the second call; and the committed record is mutated
by the second call (`File::create` truncates and rewrites it): after a
second, identically-derived request with a different request id, the
stored record changes from the first request's serialization to the
second's. -/
theorem c1_no_idempotency :
    (get_issue_transaction envOk [] reqA).1.code = 0 ∧
    (get_issue_transaction envOk (get_issue_transaction envOk [] reqA).2.1 reqA).1.code
      = 0 ∧
    get_issue_info (get_issue_transaction envOk [] reqA).2.1 (hexEncode code2) =
      "REQ:r1" ∧
    (get_issue_transaction envOk (get_issue_transaction envOk [] reqA).2.1 reqA2).1.code
      = 0 ∧
    get_issue_info
      (get_issue_transaction envOk
        (get_issue_transaction envOk [] reqA).2.1 reqA2).2.1
      (hexEncode code2) = "REQ:r2" := by decide

/-- C10: an empty salt (`rand_str = Some("")`) contributes no bytes, so
the derivation preimage — and hence the Keccak-256 derived code in every
environment — is identical to that of an absent salt (`rand_str = None`). -/
theorem c10_empty_salt (token_address : Bytes) (tokenid chain_id : Nat) :
    derivationData token_address tokenid chain_id (some "") =
      derivationData token_address tokenid chain_id none ∧
    ∀ env : Env,
      env.keccak256 (derivationData token_address tokenid chain_id (some "")) =
        env.keccak256 (derivationData token_address tokenid chain_id none) := by
  have h : derivationData token_address tokenid chain_id (some "") =
      derivationData token_address tokenid chain_id none := rfl
  exact ⟨h, fun env => by rw [h]⟩

end NftIssueTx
